import Mathlib

set_option maxRecDepth 8192
set_option maxHeartbeats 1000000

/-!
Verification development for the placeholder-image-replacer scripts
(`.github/scripts/placeholder_image_replacer.py` and
`.github/scripts/generate_articles.py`).  Python strings are modelled as
`List Char`; Python exceptions as an explicit `PyResult`; the two external
HTTP services and the YAML parser are modelled as oracles passed in as
functions.  The two scripts share all of their control logic; definitions
that are literally identical in both files (the constants, the retry loops
of `generate_and_upload_image`, the batch-driver state machine) are given
once, in the root namespace, while the parts that differ
(`extract_front_matter`, `replace_image_in_markdown`, statistics, the
summary file) live in namespaces `PIR` (placeholder_image_replacer.py) and
`GA` (generate_articles.py).
-/

namespace ImgRepl

/-- Result of running a piece of Python code: either a value or a raised
exception carrying its message string. -/
inductive PyResult (α : Type) where
  | ok (val : α)
  | raised (msg : List Char)
deriving DecidableEq

/-- Whether a Python result is a normal value rather than a raised
exception. -/
def PyResult.isOk {α : Type} : PyResult α → Bool
  | PyResult.ok _ => true
  | PyResult.raised _ => false

/-- Python whitespace, the character class of the regex class for spaces and
of `str.strip()`. -/
def isWS (c : Char) : Bool :=
  c = ' ' || c = '\n' || c = '\t' || c = '\r' || c = '\x0b' || c = '\x0c'

/-- Model of Python `str.strip()`: drop whitespace from both ends. -/
def trimChars (s : List Char) : List Char :=
  ((s.dropWhile isWS).reverse.dropWhile isWS).reverse

/-- Whether the first list is an initial segment of the second. -/
def isPrefixList : List Char → List Char → Bool
  | [], _ => true
  | _ :: _, [] => false
  | a :: as, b :: bs => a = b && isPrefixList as bs

/-- Model of Python `pat in s` (substring containment). -/
def isSubstring (pat : List Char) : List Char → Bool
  | [] => isPrefixList pat []
  | s@(_ :: rest) => isPrefixList pat s || isSubstring pat rest

/-- Model of Python `s.find(pat)`: index of the leftmost occurrence, `none`
when there is none. -/
def findSub (pat : List Char) : List Char → Option Nat
  | [] => if isPrefixList pat [] then some 0 else none
  | s@(_ :: rest) =>
      if isPrefixList pat s then some 0
      else (findSub pat rest).map (fun n => n + 1)

/-- Model of Python `str.lower()` on our character lists. -/
def toLowerList (s : List Char) : List Char := s.map Char.toLower

/-- Fuel-driven scanner for Python `str.replace(pat, rep)` with a non-empty
pattern `p :: ps`: scan left to right, replace every non-overlapping
occurrence.  The fuel is always instantiated with the length of the string,
which makes the recursion structural. -/
def scanRep (p : Char) (ps rep : List Char) : Nat → List Char → List Char
  | 0, s => s
  | _ + 1, [] => []
  | fuel + 1, c :: rest =>
      if p = c && isPrefixList ps rest then
        rep ++ scanRep p ps rep fuel (rest.drop ps.length)
      else
        c :: scanRep p ps rep fuel rest

/-- Model of Python `s.replace(pat, rep)` (all non-overlapping occurrences,
left to right; every call in the scripts uses the non-empty sentinel URL as
the pattern). -/
def replaceAll (pat rep s : List Char) : List Char :=
  match pat with
  | [] => s
  | p :: ps => scanRep p ps rep s.length s

/-- Scanner that substitutes only the first occurrence and copies the rest
of the string unchanged. -/
def scanRepOnce (p : Char) (ps rep : List Char) : Nat → List Char → List Char
  | 0, s => s
  | _ + 1, [] => []
  | fuel + 1, c :: rest =>
      if p = c && isPrefixList ps rest then
        rep ++ rest.drop ps.length
      else
        c :: scanRepOnce p ps rep fuel rest

/-- Modelled from the spec: replacement of only the first occurrence of the
sentinel ("the sentinel URL, once found, must be uniquely replaceable by a
single new URL", "exactly one substitution").  Used to compare the
spec-mandated behaviour with the source's replace-all. -/
def replaceFirst (pat rep s : List Char) : List Char :=
  match pat with
  | [] => s
  | p :: ps => scanRepOnce p ps rep s.length s

/-- Scanner counting the non-overlapping occurrences found by the same left
to right scan that `scanRep` performs. -/
def scanCount (p : Char) (ps : List Char) : Nat → List Char → Nat
  | 0, _ => 0
  | _ + 1, [] => 0
  | fuel + 1, c :: rest =>
      if p = c && isPrefixList ps rest then
        scanCount p ps fuel (rest.drop ps.length) + 1
      else
        scanCount p ps fuel rest

/-- Number of non-overlapping occurrences of `pat` in `s` under the scan
order of `replaceAll`. -/
def countOcc (pat s : List Char) : Nat :=
  match pat with
  | [] => 0
  | p :: ps => scanCount p ps s.length s

/-- Split a string at newline characters (used to model line-oriented
regexes and the simple YAML mappings of the front matter). -/
def splitLinesAux (cur : List Char) : List Char → List (List Char)
  | [] => [cur.reverse]
  | c :: rest =>
      if c = '\n' then cur.reverse :: splitLinesAux [] rest
      else splitLinesAux (c :: cur) rest

/-- All lines of a string, in order. -/
def splitLines (s : List Char) : List (List Char) := splitLinesAux [] s

/-! Constants shared by both scripts (identical values in both files). -/

/-- The sentinel placeholder image URL searched for in every article. -/
def PLACEHOLDER_IMAGE_URL : List Char :=
  "https://res.cloudinary.com/dbcpfy04c/image/upload/v1743184673/images_k6zam3.png".data

/-- Maximum number of retries for API calls. -/
def MAX_RETRIES : Nat := 5

/-- Base delay in seconds before retrying. -/
def BASE_RETRY_DELAY : Nat := 5

/-- Maximum delay in seconds (declared in both scripts; note that no code
path of `generate_and_upload_image` ever reads it). -/
def MAX_DELAY : Nat := 120

/-- Fixed wait after each successful image creation. -/
def SUCCESS_DELAY : Nat := 60

/-! The image-generation pipeline of `generate_and_upload_image`. -/

/-- What a single Gemini generation attempt can produce, as far as the
retry logic can observe it: a raised exception, a response without usable
image parts (falls through to the retry branch without raising), or a
usable image (which moves the attempt on to the upload loop). -/
inductive GenOutcome where
  | image
  | noParts
  | exn (msg : List Char)
deriving DecidableEq

/-- Oracles describing the behaviour of the two external services during
one call of `generate_and_upload_image`: the generation outcome at each
outer attempt (1-indexed), and the upload result at each (outer attempt,
upload attempt) pair. -/
structure GenEnv where
  gen : Nat → GenOutcome
  upload : Nat → Nat → PyResult (List Char)

/-- Model of `upload_to_cloudinary` (identical in both scripts): status 200
returns the secure URL, 429 raises a rate-limit exception, 500 and above a
server-error exception, anything else a generic failure exception. -/
def upload_to_cloudinary (status : Nat) (body secure_url : List Char) :
    PyResult (List Char) :=
  if status = 200 then PyResult.ok secure_url
  else if status = 429 then
    PyResult.raised ("Cloudinary rate limit exceeded: ".data ++ body)
  else if 500 ≤ status then
    PyResult.raised ("Cloudinary server error: ".data ++ body)
  else
    PyResult.raised ("Cloudinary upload failed with status ".data ++
      (Nat.repr status).data ++ ": ".data ++ body)

/-- The rate-limit test of the inner upload loop:
`"rate limit" in str(e).lower()`. -/
def rlUpload (msg : List Char) : Bool :=
  isSubstring "rate limit".data (toLowerList msg)

/-- The rate-limit test of the outer generation loop and of the batch
driver: `"rate limit" in m or "quota" in m or "429" in m` on the lowered
message. -/
def rlGen (msg : List Char) : Bool :=
  isSubstring "rate limit".data (toLowerList msg) ||
    isSubstring "quota".data (toLowerList msg) ||
    isSubstring "429".data (toLowerList msg)

/-- Truthiness of the `image_url` variable (`None` and the empty string are
falsy). -/
def truthyStr : Option (List Char) → Bool
  | none => false
  | some s => !s.isEmpty

/-- The inner upload retry loop of `generate_and_upload_image`, over the
list of remaining 1-indexed upload attempts.  On a truthy URL the loop
breaks; on a falsy URL it sleeps `retry_delay * 2 ^ (k - 1)` and continues;
on an exception it sleeps that same delay only when the message matches the
rate-limit signature, otherwise it continues without sleeping.  `cur` is the
current value of the `image_url` variable; the result is the final
`image_url` together with the list of slept delays, in order.  No delay is
ever clamped. -/
def uploadLoop (up : Nat → PyResult (List Char)) (retry_delay : Nat) :
    List Nat → Option (List Char) → Option (List Char) × List Nat
  | [], cur => (cur, [])
  | k :: ks, cur =>
      match up k with
      | PyResult.ok url =>
          if url.isEmpty then
            let r := uploadLoop up retry_delay ks (some url)
            (r.1, retry_delay * 2 ^ (k - 1) :: r.2)
          else (some url, [])
      | PyResult.raised m =>
          if rlUpload m then
            let r := uploadLoop up retry_delay ks cur
            (r.1, retry_delay * 2 ^ (k - 1) :: r.2)
          else uploadLoop up retry_delay ks cur

/-- The outer attempt loop of `generate_and_upload_image`, over the list of
remaining 1-indexed attempts.  A usable image runs the upload loop (whose
attempt count reuses `max_retries`); a truthy upload result is returned at
once.  Otherwise, and for a partless response, the loop sleeps
`retry_delay * 2 ^ (attempt - 1)` when another attempt remains.  An
exception sleeps `retry_delay * 2 ^ attempt` when its message matches the
rate-limit/quota/429 signature (and another attempt remains), and
`retry_delay * 2 ^ (attempt - 1)` otherwise.  The result pairs the returned
URL (or `None` after exhaustion) with all slept delays in order. -/
def genLoop (env : GenEnv) (max_retries retry_delay : Nat) :
    List Nat → Option (List Char) × List Nat
  | [] => (none, [])
  | attempt :: rest =>
      match env.gen attempt with
      | GenOutcome.image =>
          let u := uploadLoop (env.upload attempt) retry_delay
              (List.range' 1 max_retries) none
          if truthyStr u.1 then u
          else if attempt < max_retries then
            let t := genLoop env max_retries retry_delay rest
            (t.1, u.2 ++ retry_delay * 2 ^ (attempt - 1) :: t.2)
          else
            let t := genLoop env max_retries retry_delay rest
            (t.1, u.2 ++ t.2)
      | GenOutcome.noParts =>
          if attempt < max_retries then
            let t := genLoop env max_retries retry_delay rest
            (t.1, retry_delay * 2 ^ (attempt - 1) :: t.2)
          else genLoop env max_retries retry_delay rest
      | GenOutcome.exn msg =>
          if rlGen msg then
            if attempt < max_retries then
              let t := genLoop env max_retries retry_delay rest
              (t.1, retry_delay * 2 ^ attempt :: t.2)
            else genLoop env max_retries retry_delay rest
          else if attempt < max_retries then
            let t := genLoop env max_retries retry_delay rest
            (t.1, retry_delay * 2 ^ (attempt - 1) :: t.2)
          else genLoop env max_retries retry_delay rest

/-- Model of `generate_and_upload_image` (identical retry logic in both
scripts): the returned image URL, `none` after all attempts failed, paired
with every delay slept during the call.  Every internal exception is caught
inside the function; it never raises. -/
def generate_and_upload_image (env : GenEnv) (max_retries retry_delay : Nat) :
    Option (List Char) × List Nat :=
  genLoop env max_retries retry_delay (List.range' 1 max_retries)

/-! Front matter.  The scripts hand the text between the delimiters to
`yaml.safe_load`, an out-of-scope black box; it is modelled as an oracle
`parse : List Char → PyResult (Option FM)` where `PyResult.raised` is a
YAML error, `PyResult.ok none` is the Python value `None`, and
`PyResult.ok (some es)` is a mapping with the given key/value pairs (the
front matter of these markdown files parses to a mapping or to `None`;
non-mapping scalar results are outside the model, no claim depends on
them). -/

/-- A parsed front-matter mapping: association list of keys and values. -/
abbrev FM := List (List Char × List Char)

/-- Python `"title" in front_matter` on a mapping. -/
def hasTitleKey (es : FM) : Bool := es.any (fun kv => kv.1 == "title".data)

/-- Python `front_matter["title"]` on a mapping that has the key. -/
def lookupTitle (es : FM) : List Char :=
  ((es.find? (fun kv => kv.1 == "title".data)).map (fun kv => kv.2)).getD []

/-- The caller-side test `not front_matter or "title" not in front_matter`
(negated): the extracted front matter is truthy and has a `title` key.  An
empty mapping is falsy and has no keys, so truthiness reduces to the key
test. -/
def fmTitleOk : Option FM → Bool
  | none => false
  | some es => hasTitleKey es

namespace PIR

/-- Model of the `re.search` of placeholder_image_replacer.py's
`extract_front_matter` with the anchored lazy pattern of three dashes,
optional whitespace, a lazy group, optional whitespace, three dashes and
trailing whitespace, under DOTALL: the content must start with the opening
delimiter, the closing delimiter is the first occurrence of three dashes
from index 3 on, the group is the text between the delimiters with
surrounding whitespace stripped, and the whole match extends past the
closing delimiter over any trailing whitespace. -/
def fmMatch (content : List Char) : Option (List Char × List Char) :=
  if isPrefixList "---".data content then
    match findSub "---".data (content.drop 3) with
    | none => none
    | some i =>
        some (trimChars ((content.drop 3).take i),
          content.take (3 + i + 3) ++ (content.drop (3 + i + 3)).takeWhile isWS)
  else none

/-- Model of placeholder_image_replacer.py's `extract_front_matter`: on a
regex match the interior is parsed; a YAML error yields the null result,
and otherwise the parsed value is returned together with the whole match,
with no check of its shape and no check for a title key. -/
def extract_front_matter (parse : List Char → PyResult (Option FM))
    (content : List Char) : Option FM × Option (List Char) :=
  match fmMatch content with
  | none => (none, none)
  | some (inner, whole) =>
      match parse inner with
      | PyResult.raised _ => (none, none)
      | PyResult.ok v => (v, some whole)

/-- Model of placeholder_image_replacer.py's `replace_image_in_markdown`.
The file's content is passed in (`readErr` injects a read-time exception,
which the function's bare `raise` re-raises); the result carries the
returned boolean, the content of the file after the call, and the content
written to the backup file when one is created.  Python's `str.replace`
substitutes every occurrence of the sentinel. -/
def replace_image_in_markdown (parse : List Char → PyResult (Option FM))
    (env : GenEnv) (readErr : Option (List Char)) (content : List Char) :
    PyResult (Bool × List Char × Option (List Char)) :=
  match readErr with
  | some m => PyResult.raised m
  | none =>
      if isSubstring PLACEHOLDER_IMAGE_URL content then
        if fmTitleOk (extract_front_matter parse content).1 then
          let g := generate_and_upload_image env MAX_RETRIES BASE_RETRY_DELAY
          if truthyStr g.1 then
            PyResult.ok (true,
              replaceAll PLACEHOLDER_IMAGE_URL (g.1.getD []) content,
              some content)
          else PyResult.ok (false, content, none)
        else PyResult.ok (false, content, none)
      else PyResult.ok (false, content, none)

end PIR

/-! The batch driver of `process_all_markdown_files`.  The loop body and the
consecutive-failure breaker are identical in both scripts; the
`success_count` and `failed_files` bookkeeping below is
placeholder_image_replacer.py's (generate_articles.py keeps its statistics
inside `replace_image_in_markdown` instead and is otherwise the same). -/

/-- What one iteration of the driver loop observes of
`replace_image_in_markdown`: a normal return or a raised exception. -/
inductive FileOutcome where
  | ok (replaced : Bool)
  | exn (msg : List Char)
deriving DecidableEq

/-- The driver's loop state: the adaptive inter-file delay, the
consecutive-failure counter, the success counter, the failed-file list (by
0-based index), and every sleep performed so far, in order. -/
structure DriverState where
  current_delay : Nat
  consecutive_failures : Nat
  success_count : Nat
  failed_files : List Nat
  sleeps : List Nat
deriving DecidableEq

/-- Base delay between files. -/
def base_delay : Nat := 3

/-- Cap for the adaptive inter-file delay. -/
def driver_max_delay : Nat := 60

/-- Threshold of the consecutive-failure breaker. -/
def max_consecutive_failures : Nat := 3

/-- The driver state before the first file. -/
def initDriver : DriverState :=
  { current_delay := base_delay, consecutive_failures := 0,
    success_count := 0, failed_files := [], sleeps := [] }

/-- The try/except body of one driver iteration: a success resets the
failure counter, sleeps the fixed `SUCCESS_DELAY` and resets the adaptive
delay to the base; a `False` return records the file as failed and sleeps
the current adaptive delay; an exception records the file as failed,
doubles the adaptive delay (capped at `driver_max_delay`) exactly when the
message matches the rate-limit/quota/429 signature, and sleeps the
resulting delay. -/
def driverStepMain (st : DriverState) (idx : Nat) : FileOutcome → DriverState
  | FileOutcome.ok true =>
      { st with success_count := st.success_count + 1,
                consecutive_failures := 0,
                sleeps := st.sleeps ++ [SUCCESS_DELAY],
                current_delay := base_delay }
  | FileOutcome.ok false =>
      { st with failed_files := st.failed_files ++ [idx],
                consecutive_failures := st.consecutive_failures + 1,
                sleeps := st.sleeps ++ [st.current_delay] }
  | FileOutcome.exn msg =>
      let d := if rlGen msg then min (st.current_delay * 2) driver_max_delay
               else st.current_delay
      { st with failed_files := st.failed_files ++ [idx],
                consecutive_failures := st.consecutive_failures + 1,
                current_delay := d,
                sleeps := st.sleeps ++ [d] }

/-- The consecutive-failure breaker run after every iteration: at the
threshold it sleeps `min (current_delay * 3) 120` and resets the counter. -/
def driverBreak (st : DriverState) : DriverState :=
  if max_consecutive_failures ≤ st.consecutive_failures then
    { st with sleeps := st.sleeps ++ [min (st.current_delay * 3) 120],
              consecutive_failures := 0 }
  else st

/-- One full driver iteration. -/
def driverStep (st : DriverState) (idx : Nat) (o : FileOutcome) : DriverState :=
  driverBreak (driverStepMain st idx o)

/-- The driver loop from a given state and file index over the remaining
per-file outcomes. -/
def driverRunFrom : DriverState → Nat → List FileOutcome → DriverState
  | st, _, [] => st
  | st, i, o :: rest => driverRunFrom (driverStep st i o) (i + 1) rest

/-- The whole driver loop over a batch of per-file outcomes. -/
def driverRun (outs : List FileOutcome) : DriverState :=
  driverRunFrom initDriver 0 outs

namespace GA

/-- Model of generate_articles.py's rewritten `extract_front_matter`: the
content must start with the opening delimiter, the closing delimiter is
found with `str.find` from index 3, the stripped interior is parsed, and
the parsed value is returned (with the whole block up to the closing
delimiter) only when it is a truthy mapping; a missing delimiter, a parse
error, a `None` result or an empty mapping all yield the null result.  A
mapping without a `title` key is still returned. -/
def extract_front_matter (parse : List Char → PyResult (Option FM))
    (content : List Char) : Option FM × Option (List Char) :=
  if isPrefixList "---".data content then
    match findSub "---".data (content.drop 3) with
    | none => (none, none)
    | some i =>
        match parse (trimChars ((content.drop 3).take i)) with
        | PyResult.raised _ => (none, none)
        | PyResult.ok none => (none, none)
        | PyResult.ok (some es) =>
            if es.isEmpty then (none, none)
            else (some es, some (content.take (3 + i + 3)))
  else (none, none)

/-- One line of text: the characters up to the next newline. -/
def takeLine (s : List Char) : List Char := s.takeWhile (fun c => c ≠ '\n')

/-- The attempt of generate_articles.py's fallback title regex at one
candidate position, applied to the text that follows `title:`.  The greedy
whitespace class may cross newlines, so the lazy dotted group then takes
the rest of the line of the first non-whitespace character (possibly a
later line), stripped.  When nothing but whitespace remains, backtracking
into the whitespace run still yields a match — whose group strips to the
empty title — as long as the run has a character other than a newline (a
newline cannot be matched by the dot). -/
def altTitleAt (rest : List Char) : Option (List Char) :=
  match rest.dropWhile isWS with
  | c :: after => some (trimChars (takeLine (c :: after)))
  | [] =>
      if rest.any (fun c => c ≠ '\n') then some [] else none

/-- The suffixes of the content that start right after a newline — the
line-start positions other than the first — in order. -/
def lineRestsAux : List Char → List (List Char)
  | [] => []
  | c :: rest =>
      if c = '\n' then rest :: lineRestsAux rest else lineRestsAux rest

/-- The suffixes of the content at every line start, leftmost first. -/
def lineRests (content : List Char) : List (List Char) :=
  content :: lineRestsAux content

/-- Model of the fallback title regex of generate_articles.py (a MULTILINE
search for a line-anchored `title:`, then greedy whitespace that may cross
newlines, then a lazy non-empty single-line group, then `$`; the group is
stripped): the leftmost line start whose `title:` remainder admits a match
yields that match's stripped group. -/
def altTitleSearch (content : List Char) : Option (List Char) :=
  (lineRests content).findSome? (fun r =>
    if isPrefixList "title:".data r then altTitleAt (r.drop 6) else none)

/-- The in-memory statistics record of generate_articles.py. -/
structure Stats where
  total_files : Nat
  files_with_placeholders : Nat
  successful_replacements : Nat
  failed_replacements : Nat
  skipped_files : Nat
  replaced_images : List (List Char × List Char × List Char)
deriving DecidableEq

/-- The statistics at process start: all counters zero, no replacements. -/
def initStats : Stats :=
  { total_files := 0, files_with_placeholders := 0,
    successful_replacements := 0, failed_replacements := 0,
    skipped_files := 0, replaced_images := [] }

/-- Sum of the three per-file outcome counters. -/
def sumThree (s : Stats) : Nat :=
  s.successful_replacements + s.failed_replacements + s.skipped_files

/-- Model of generate_articles.py's `replace_image_in_markdown`: returns
the boolean result (or the re-raised exception) together with the updated
statistics.  A missing file or a read-time exception counts as a failed
replacement; a file without the sentinel counts as skipped; with the
sentinel present, a failed front-matter extraction falls back to the
line-oriented title regex before giving up; a generation failure counts as
failed; a success bumps the success counter and appends to
`replaced_images`. -/
def replace_image_in_markdown (parse : List Char → PyResult (Option FM))
    (env : GenEnv) (fname : List Char) (fileExists : Bool)
    (readErr : Option (List Char)) (content : List Char) (s : Stats) :
    PyResult Bool × Stats :=
  if !fileExists then
    (PyResult.ok false,
     { s with failed_replacements := s.failed_replacements + 1 })
  else
    match readErr with
    | some m =>
        (PyResult.raised m,
         { s with failed_replacements := s.failed_replacements + 1 })
    | none =>
        if !(isSubstring PLACEHOLDER_IMAGE_URL content) then
          (PyResult.ok false, { s with skipped_files := s.skipped_files + 1 })
        else
          let s1 := { s with
            files_with_placeholders := s.files_with_placeholders + 1 }
          let fm := (extract_front_matter parse content).1
          match (if fmTitleOk fm then some (lookupTitle (fm.getD []))
                 else altTitleSearch content) with
          | none =>
              (PyResult.ok false,
               { s1 with failed_replacements := s1.failed_replacements + 1 })
          | some title =>
              let g := generate_and_upload_image env MAX_RETRIES BASE_RETRY_DELAY
              if truthyStr g.1 then
                (PyResult.ok true,
                 { s1 with
                     successful_replacements := s1.successful_replacements + 1,
                     replaced_images :=
                       s1.replaced_images ++ [(fname, title, g.1.getD [])] })
              else
                (PyResult.ok false,
                 { s1 with failed_replacements := s1.failed_replacements + 1 })

/-- The per-file inputs of one call of generate_articles.py's
`replace_image_in_markdown`. -/
structure GFileSpec where
  parse : List Char → PyResult (Option FM)
  env : GenEnv
  fname : List Char
  fileExists : Bool
  readErr : Option (List Char)
  content : List Char

/-- Statistics effect of processing one file. -/
def fileStep (s : Stats) (fs : GFileSpec) : Stats :=
  (replace_image_in_markdown fs.parse fs.env fs.fname fs.fileExists
    fs.readErr fs.content s).2

/-- Statistics effect of the whole batch loop, in file order. -/
def statsFold (specs : List GFileSpec) (s : Stats) : Stats :=
  specs.foldl fileStep s

/-- Model of generate_articles.py's `process_all_markdown_files`: with no
markdown files it returns early, before the `create_summary_file()` call at
its end; otherwise it records the file total, runs the loop and writes the
summary.  The boolean records whether the summary file was written. -/
def process_all_run (specs : List GFileSpec) (s : Stats) : Stats × Bool :=
  if specs.isEmpty then (s, false)
  else (statsFold specs { s with total_files := specs.length }, true)

/-- How a run of `main` ends: `process_all_markdown_files` returns,
`KeyboardInterrupt` escapes it, or another exception escapes it. -/
inductive MainExit where
  | completed
  | interrupted
  | crashed
deriving DecidableEq

/-- Model of the summary-writing behaviour of generate_articles.py's
`main`: on normal completion the summary comes (only) from the end of
`process_all_markdown_files`; the `KeyboardInterrupt` handler and the
catch-all handler each write the summary themselves. -/
def main_summary_written (specs : List GFileSpec) (s : Stats)
    (ex : MainExit) : Bool :=
  match ex with
  | MainExit.completed => (process_all_run specs s).2
  | MainExit.interrupted => true
  | MainExit.crashed => true

end GA

/-! Concrete oracles and documents used by the witnesses and
counterexamples. -/

/-- A concrete instance of the black-box YAML parser, for simple front
matter made of `key: value` lines: blank input parses to `None`, lines each
containing a colon parse to the evident mapping, anything else is a parse
error. -/
def parseSimple (s : List Char) : PyResult (Option FM) :=
  let ls := (splitLines s).filter (fun l => !(trimChars l).isEmpty)
  if ls.isEmpty then PyResult.ok none
  else
    let kvs := ls.filterMap (fun l =>
      match findSub ":".data l with
      | none => none
      | some i => some (trimChars (l.take i), trimChars (l.drop (i + 1))))
    if kvs.length = ls.length then PyResult.ok (some kvs)
    else PyResult.raised "yaml error".data

/-- The rate-limit message produced by `upload_to_cloudinary` on a 429
response with body `x`. -/
def rlMsg : List Char := "Cloudinary rate limit exceeded: x".data

/-- A freshly hosted image URL returned by a successful upload. -/
def urlNew : List Char := "https://host/new.png".data

/-- Environment in which generation always yields an image and every upload
succeeds. -/
def envOK : GenEnv :=
  { gen := fun _ => GenOutcome.image, upload := fun _ _ => PyResult.ok urlNew }

/-- Environment in which generation always yields an image and every upload
is answered by Cloudinary with status 429, so `upload_to_cloudinary` raises
a rate-limit exception on every attempt. -/
def envRL : GenEnv :=
  { gen := fun _ => GenOutcome.image,
    upload := fun _ _ => upload_to_cloudinary 429 "x".data [] }

/-- Environment in which every generation attempt raises a rate-limited
exception. -/
def envRLgen : GenEnv :=
  { gen := fun _ => GenOutcome.exn rlMsg,
    upload := fun _ _ => PyResult.ok urlNew }

/-- Environment in which every generation attempt raises an exception whose
message matches none of the rate-limit signatures. -/
def envPlainExn : GenEnv :=
  { gen := fun _ => GenOutcome.exn "boom".data,
    upload := fun _ _ => PyResult.ok urlNew }

/-- A document with a valid titled front matter and one occurrence of the
sentinel URL. -/
def doc1 : List Char :=
  "---\ntitle: T\n---\n![a](".data ++ PLACEHOLDER_IMAGE_URL ++ ")".data

/-- A document with a valid titled front matter and two occurrences of the
sentinel URL. -/
def doc3 : List Char :=
  "---\ntitle: T\n---\n![a](".data ++ PLACEHOLDER_IMAGE_URL ++
    ") ![b](".data ++ PLACEHOLDER_IMAGE_URL ++ ")".data

/-- The document `doc3` after both sentinel occurrences are replaced by
`urlNew`. -/
def doc3out : List Char :=
  "---\ntitle: T\n---\n![a](".data ++ urlNew ++
    ") ![b](".data ++ urlNew ++ ")".data

/-- A document that does not contain the sentinel URL. -/
def docNoPh : List Char := "# Hello\n".data

/-- A document whose front matter parses to a mapping without a `title`
key. -/
def doc5 : List Char := "---\nauthor: bob\n---\nbody".data

/-- A document with the sentinel URL, an unclosed front-matter block, and a
recoverable `title:` line. -/
def doc6 : List Char := "---\ntitle: T\n".data ++ PLACEHOLDER_IMAGE_URL

/-- The statistics transition of one normally-returning call of
generate_articles.py's `replace_image_in_markdown`: exactly one of the
success, failure and skip counters grows by exactly one, the others are
unchanged. -/
def GA.bumpOne (s t : GA.Stats) : Prop :=
  (t.successful_replacements = s.successful_replacements + 1 ∧
    t.failed_replacements = s.failed_replacements ∧
    t.skipped_files = s.skipped_files) ∨
  (t.successful_replacements = s.successful_replacements ∧
    t.failed_replacements = s.failed_replacements + 1 ∧
    t.skipped_files = s.skipped_files) ∨
  (t.successful_replacements = s.successful_replacements ∧
    t.failed_replacements = s.failed_replacements ∧
    t.skipped_files = s.skipped_files + 1)

/-- A driver state two failures into a streak, used to exercise the
consecutive-failure breaker. -/
def stW7 : DriverState :=
  { current_delay := 10, consecutive_failures := 2, success_count := 0,
    failed_files := [], sleeps := [] }

/-- A mid-run driver state with an elevated adaptive delay, used to
exercise the success and classification transitions. -/
def stW8 : DriverState :=
  { current_delay := 7, consecutive_failures := 1, success_count := 2,
    failed_files := [0], sleeps := [3] }

/-- A concrete per-file input for the generate_articles.py batch loop. -/
def spec1 : GA.GFileSpec :=
  { parse := parseSimple, env := envOK, fname := "f.md".data,
    fileExists := true, readErr := none, content := docNoPh }

end ImgRepl


open ImgRepl

/-! Helper lemmas about the string scanners. -/

/-- A scan whose occurrence count is zero leaves the string unchanged. -/
theorem scanRep_count_zero (p : Char) (ps rep : List Char) :
    ∀ fuel s, scanCount p ps fuel s = 0 → scanRep p ps rep fuel s = s := by
  intro fuel
  induction fuel with
  | zero => intro s _; rfl
  | succ n ih =>
      intro s hc
      match s with
      | [] => rfl
      | c :: rest =>
          by_cases h : (p = c && isPrefixList ps rest) = true
          · rw [scanCount, if_pos h] at hc
            omega
          · rw [scanCount, if_neg h] at hc
            rw [scanRep, if_neg h, ih rest hc]

/-- A scan whose occurrence count is one agrees with the
first-occurrence-only substitution. -/
theorem scanRep_count_one (p : Char) (ps rep : List Char) :
    ∀ fuel s, scanCount p ps fuel s = 1 →
      scanRep p ps rep fuel s = scanRepOnce p ps rep fuel s := by
  intro fuel
  induction fuel with
  | zero => intro s h; rw [scanCount] at h; omega
  | succ n ih =>
      intro s hc
      match s with
      | [] => rw [scanCount] at hc; omega
      | c :: rest =>
          by_cases h : (p = c && isPrefixList ps rest) = true
          · have h0 : scanCount p ps n (rest.drop ps.length) = 0 := by
              rw [scanCount, if_pos h] at hc
              omega
            rw [scanRep, if_pos h, scanRepOnce, if_pos h,
              scanRep_count_zero p ps rep n _ h0]
          · rw [scanCount, if_neg h] at hc
            rw [scanRep, if_neg h, scanRepOnce, if_neg h, ih rest hc]

/-- On a string containing exactly one occurrence of the pattern,
replace-all and replace-first coincide. -/
theorem replaceAll_eq_replaceFirst (pat rep s : List Char)
    (h1 : countOcc pat s = 1) :
    replaceAll pat rep s = replaceFirst pat rep s := by
  match pat with
  | [] => rfl
  | p :: ps => exact scanRep_count_one p ps rep s.length s h1

/-- A prefix of a string is a prefix of any right extension of it. -/
theorem isPrefixList_append (pat : List Char) :
    ∀ s t : List Char, isPrefixList pat s = true →
      isPrefixList pat (s ++ t) = true := by
  induction pat with
  | nil => intro s t _; rfl
  | cons a as ih =>
      intro s t h
      match s with
      | [] => exact absurd h (by simp [isPrefixList])
      | b :: bs =>
          simp only [isPrefixList, Bool.and_eq_true] at h
          simp only [List.cons_append, isPrefixList, Bool.and_eq_true]
          exact ⟨h.1, ih bs t h.2⟩

/-- A substring of a string is a substring of any right extension of it. -/
theorem isSubstring_append_left (pat : List Char) :
    ∀ s t : List Char, isSubstring pat s = true →
      isSubstring pat (s ++ t) = true := by
  intro s
  induction s with
  | nil =>
      intro t h
      have hp : isPrefixList pat [] = true := h
      match pat, hp with
      | [], _ =>
          match t with
          | [] => rfl
          | c :: r => simp [isSubstring, isPrefixList]
  | cons c rest ih =>
      intro t h
      simp only [isSubstring, Bool.or_eq_true] at h
      simp only [List.cons_append, isSubstring, Bool.or_eq_true]
      rcases h with h | h
      · exact Or.inl (isPrefixList_append pat (c :: rest) t h)
      · exact Or.inr (ih t h)

/-! Helper lemmas about the retry loops. -/

/-- When every upload attempt raises, the `image_url` variable keeps its
current value through the whole upload loop. -/
theorem uploadLoop_raised_fst (up : Nat → PyResult (List Char)) (rd : Nat) :
    ∀ ks cur, (∀ k, k ∈ ks → ∃ m, up k = PyResult.raised m) →
      (uploadLoop up rd ks cur).1 = cur := by
  intro ks
  induction ks with
  | nil => intro cur _; rfl
  | cons k ks ih =>
      intro cur h
      obtain ⟨m, hm⟩ := h k (by simp)
      have hrest : ∀ j, j ∈ ks → ∃ m, up j = PyResult.raised m :=
        fun j hj => h j (by simp [hj])
      by_cases hrl : rlUpload m = true
      · simp only [uploadLoop, hm, hrl, if_true]
        exact ih cur hrest
      · simp only [uploadLoop, hm, hrl, if_false]
        exact ih cur hrest

/-- When every upload attempt raises with a rate-limited message, the
upload loop sleeps the uncapped exponential backoff at every attempt. -/
theorem uploadLoop_rl_sleeps (up : Nat → PyResult (List Char)) (rd : Nat) :
    ∀ ks cur,
      (∀ k, k ∈ ks → ∃ m, up k = PyResult.raised m ∧ rlUpload m = true) →
      (uploadLoop up rd ks cur).2 = ks.map (fun k => rd * 2 ^ (k - 1)) := by
  intro ks
  induction ks with
  | nil => intro cur _; rfl
  | cons k ks ih =>
      intro cur h
      obtain ⟨m, hm, hrl⟩ := h k (by simp)
      have hrest : ∀ j, j ∈ ks → ∃ m, up j = PyResult.raised m ∧ rlUpload m = true :=
        fun j hj => h j (by simp [hj])
      simp only [uploadLoop, hm, hrl, if_true, List.map_cons]
      rw [ih cur hrest]

/-- When every upload attempt raises, the generation loop can never return
a URL. -/
theorem genLoop_upload_raised (env : GenEnv) (n rd : Nat)
    (h : ∀ a k, ∃ m, env.upload a k = PyResult.raised m) :
    ∀ ks, (genLoop env n rd ks).1 = none := by
  intro ks
  induction ks with
  | nil => rfl
  | cons a ks ih =>
      cases hg : env.gen a with
      | image =>
          have hu : (uploadLoop (env.upload a) rd (List.range' 1 n) none).1 = none :=
            uploadLoop_raised_fst _ _ _ _ (fun k _ => h a k)
          simp only [genLoop, hg, hu, truthyStr, Bool.false_eq_true, if_false]
          split <;> simp [ih]
      | noParts =>
          simp only [genLoop, hg]
          split <;> simp [ih]
      | exn msg =>
          simp only [genLoop, hg]
          split <;> (try split) <;> simp [ih]

/-- Every URL that `generate_and_upload_image`'s loop returns is truthy
(the only `return image_url` is guarded by `if image_url:`). -/
theorem genLoop_some_nonempty (env : GenEnv) (n rd : Nat) :
    ∀ ks url, (genLoop env n rd ks).1 = some url → url.isEmpty = false := by
  intro ks
  induction ks with
  | nil => intro url h; simp [genLoop] at h
  | cons a ks ih =>
      intro url h
      cases hg : env.gen a with
      | image =>
          simp only [genLoop, hg] at h
          by_cases ht :
              truthyStr (uploadLoop (env.upload a) rd (List.range' 1 n) none).1 = true
          · rw [if_pos ht] at h
            rw [h] at ht
            simpa [truthyStr] using ht
          · rw [if_neg ht] at h
            split at h <;> (try simp at h) <;> exact ih url h
      | noParts =>
          simp only [genLoop, hg] at h
          split at h <;> (try simp at h) <;> exact ih url h
      | exn msg =>
          simp only [genLoop, hg] at h
          split at h <;> (try split at h) <;> (try simp at h) <;> exact ih url h

/-- When every generation attempt raises a rate-limited exception, the
loop sleeps the longer uncapped exponential `rd * 2 ^ k` exactly at the
attempts that are not the last one. -/
theorem genLoop_exn_rl_sleeps (env : GenEnv) (n rd : Nat) :
    ∀ ks, (∀ k, k ∈ ks → ∃ m, env.gen k = GenOutcome.exn m ∧ rlGen m = true) →
      (genLoop env n rd ks).2
        = (ks.filter (fun k => decide (k < n))).map (fun k => rd * 2 ^ k) := by
  intro ks
  induction ks with
  | nil => intro _; rfl
  | cons a ks ih =>
      intro h
      obtain ⟨m, hm, hrl⟩ := h a (by simp)
      have hrest : ∀ k, k ∈ ks → ∃ m, env.gen k = GenOutcome.exn m ∧ rlGen m = true :=
        fun k hk => h k (by simp [hk])
      simp only [genLoop, hm, hrl, if_true, List.filter_cons]
      by_cases ha : a < n
      · simp [ha, ih hrest]
      · simp [ha, ih hrest]

/-- When every generation attempt raises an exception that matches none of
the rate-limit signatures, the loop sleeps the standard uncapped
exponential `rd * 2 ^ (k - 1)` exactly at the attempts that are not the
last one. -/
theorem genLoop_exn_plain_sleeps (env : GenEnv) (n rd : Nat) :
    ∀ ks, (∀ k, k ∈ ks → ∃ m, env.gen k = GenOutcome.exn m ∧ rlGen m = false) →
      (genLoop env n rd ks).2
        = (ks.filter (fun k => decide (k < n))).map (fun k => rd * 2 ^ (k - 1)) := by
  intro ks
  induction ks with
  | nil => intro _; rfl
  | cons a ks ih =>
      intro h
      obtain ⟨m, hm, hrl⟩ := h a (by simp)
      have hrest : ∀ k, k ∈ ks → ∃ m, env.gen k = GenOutcome.exn m ∧ rlGen m = false :=
        fun k hk => h k (by simp [hk])
      simp only [genLoop, hm, hrl, Bool.false_eq_true, if_false, List.filter_cons]
      by_cases ha : a < n
      · simp [ha, ih hrest]
      · simp [ha, ih hrest]

/-- The attempts of a full run that admit a retry are exactly the first
`n - 1` ones. -/
theorem range_one_filter_lt (n : Nat) :
    (List.range' 1 n).filter (fun k => decide (k < n)) = List.range' 1 (n - 1) := by
  cases n with
  | zero => rfl
  | succ m =>
      rw [List.range'_concat, List.filter_append]
      have h1 : (List.range' 1 m).filter (fun k => decide (k < m + 1))
          = List.range' 1 m := by
        apply List.filter_eq_self.mpr
        intro a ha
        have := List.mem_range'_1.mp ha
        simp only [decide_eq_true_eq]
        omega
      have hd : (decide (1 + 1 * m < m + 1)) = false := by
        simp only [decide_eq_false_iff_not]
        omega
      have h2 : ([1 + 1 * m].filter (fun k => decide (k < m + 1))) = [] := by
        simp only [List.filter_cons, hd, Bool.false_eq_true, if_false, List.filter_nil]
      rw [h1, h2, List.append_nil]
      simp

/-- Rate-limited generation failures on every attempt make
`generate_and_upload_image` sleep the uncapped longer exponential for each
failed attempt except the last. -/
theorem generate_rl_exn_sleeps (env : GenEnv) (n rd : Nat)
    (h : ∀ k, ∃ m, env.gen k = GenOutcome.exn m ∧ rlGen m = true) :
    (generate_and_upload_image env n rd).2
      = (List.range' 1 (n - 1)).map (fun k => rd * 2 ^ k) := by
  rw [generate_and_upload_image,
    genLoop_exn_rl_sleeps env n rd (List.range' 1 n) (fun k _ => h k),
    range_one_filter_lt]

/-- Plain generation failures on every attempt make
`generate_and_upload_image` sleep the uncapped standard exponential for
each failed attempt except the last. -/
theorem generate_plain_exn_sleeps (env : GenEnv) (n rd : Nat)
    (h : ∀ k, ∃ m, env.gen k = GenOutcome.exn m ∧ rlGen m = false) :
    (generate_and_upload_image env n rd).2
      = (List.range' 1 (n - 1)).map (fun k => rd * 2 ^ (k - 1)) := by
  rw [generate_and_upload_image,
    genLoop_exn_plain_sleeps env n rd (List.range' 1 n) (fun k _ => h k),
    range_one_filter_lt]

/-- When every upload attempt raises, `generate_and_upload_image` returns
the null URL rather than raising. -/
theorem generate_upload_raised_none (env : GenEnv) (n rd : Nat)
    (h : ∀ a k, ∃ m, env.upload a k = PyResult.raised m) :
    (generate_and_upload_image env n rd).1 = none :=
  genLoop_upload_raised env n rd h (List.range' 1 n)

/-! Helper lemmas about the batch driver. -/

/-- One driver iteration accounts for exactly one file: the success counter
plus the failed-file count grows by one, whatever the outcome. -/
theorem driverStep_count (st : DriverState) (i : Nat) (o : FileOutcome) :
    (driverStep st i o).success_count + (driverStep st i o).failed_files.length
      = st.success_count + st.failed_files.length + 1 := by
  cases o with
  | ok b =>
      cases b <;>
        simp only [driverStep, driverStepMain, driverBreak] <;>
        split <;> simp <;> omega
  | exn m =>
      simp only [driverStep, driverStepMain, driverBreak]
      split <;> simp <;> omega

/-- The driver loop accounts for every file in the batch. -/
theorem driverRunFrom_count : ∀ (outs : List FileOutcome) (st : DriverState) (i : Nat),
    (driverRunFrom st i outs).success_count
        + (driverRunFrom st i outs).failed_files.length
      = st.success_count + st.failed_files.length + outs.length := by
  intro outs
  induction outs with
  | nil => intro st i; simp [driverRunFrom]
  | cons o rest ih =>
      intro st i
      have hstep := driverStep_count st i o
      calc (driverRunFrom st i (o :: rest)).success_count
            + (driverRunFrom st i (o :: rest)).failed_files.length
          = (driverStep st i o).success_count
              + (driverStep st i o).failed_files.length + rest.length := ih _ _
        _ = st.success_count + st.failed_files.length + (o :: rest).length := by
            rw [hstep]; simp; omega

/-! Helper lemmas about the statistics record of generate_articles.py. -/

/-- Every call of generate_articles.py's `replace_image_in_markdown` bumps
exactly one of the success, failure and skip counters by exactly one (the
exception path, too, bumps the failure counter before re-raising). -/
theorem GA_replace_bumpOne (parse : List Char → PyResult (Option FM)) (env : GenEnv)
    (fname : List Char) (fe : Bool) (re : Option (List Char)) (content : List Char)
    (s : GA.Stats) :
    GA.bumpOne s (GA.replace_image_in_markdown parse env fname fe re content s).2 := by
  unfold GA.replace_image_in_markdown
  by_cases h1 : (!fe) = true
  · rw [if_pos h1]
    right; left; exact ⟨rfl, rfl, rfl⟩
  · rw [if_neg h1]
    cases re with
    | some m => right; left; exact ⟨rfl, rfl, rfl⟩
    | none =>
        by_cases h2 : (!isSubstring PLACEHOLDER_IMAGE_URL content) = true
        · rw [if_pos h2]
          right; right; exact ⟨rfl, rfl, rfl⟩
        · rw [if_neg h2]
          cases hmt : (if fmTitleOk (GA.extract_front_matter parse content).1 = true
              then some (lookupTitle ((GA.extract_front_matter parse content).1.getD []))
              else GA.altTitleSearch content) with
          | none =>
              simp only [hmt]
              right; left; exact ⟨rfl, rfl, rfl⟩
          | some t =>
              simp only [hmt]
              by_cases h3 : truthyStr (generate_and_upload_image env MAX_RETRIES BASE_RETRY_DELAY).1 = true
              · simp only [h3, if_true]
                left; exact ⟨rfl, rfl, rfl⟩
              · simp only [h3, Bool.false_eq_true, if_false]
                right; left; exact ⟨rfl, rfl, rfl⟩

/-- Bumping exactly one of the three counters grows their sum by one. -/
theorem bumpOne_sumThree (s t : GA.Stats) (h : GA.bumpOne s t) :
    GA.sumThree t = GA.sumThree s + 1 := by
  rcases h with ⟨h1, h2, h3⟩ | ⟨h1, h2, h3⟩ | ⟨h1, h2, h3⟩ <;>
    simp only [GA.sumThree, h1, h2, h3] <;> omega

/-- Every call of generate_articles.py's `replace_image_in_markdown`
preserves the invariant that the success counter equals the length of the
`replaced_images` list. -/
theorem GA_replace_preserves_len (parse : List Char → PyResult (Option FM)) (env : GenEnv)
    (fname : List Char) (fe : Bool) (re : Option (List Char)) (content : List Char)
    (s : GA.Stats)
    (h : s.successful_replacements = s.replaced_images.length) :
    (GA.replace_image_in_markdown parse env fname fe re content s).2.successful_replacements
      = (GA.replace_image_in_markdown parse env fname fe re content s).2.replaced_images.length := by
  unfold GA.replace_image_in_markdown
  by_cases h1 : (!fe) = true
  · rw [if_pos h1]; exact h
  · rw [if_neg h1]
    cases re with
    | some m => exact h
    | none =>
        by_cases h2 : (!isSubstring PLACEHOLDER_IMAGE_URL content) = true
        · rw [if_pos h2]; exact h
        · rw [if_neg h2]
          cases hmt : (if fmTitleOk (GA.extract_front_matter parse content).1 = true
              then some (lookupTitle ((GA.extract_front_matter parse content).1.getD []))
              else GA.altTitleSearch content) with
          | none =>
              simp only [hmt]
              exact h
          | some t =>
              simp only [hmt]
              by_cases h3 : truthyStr (generate_and_upload_image env MAX_RETRIES BASE_RETRY_DELAY).1 = true
              · simp only [h3, if_true, List.length_append, List.length_cons,
                  List.length_nil]
                omega
              · simp only [h3, Bool.false_eq_true, if_false]
                exact h

/-- The batch loop grows the counter sum by exactly the number of files. -/
theorem statsFold_sumThree : ∀ (specs : List GA.GFileSpec) (s : GA.Stats),
    GA.sumThree (GA.statsFold specs s) = GA.sumThree s + specs.length := by
  intro specs
  induction specs with
  | nil => intro s; simp [GA.statsFold]
  | cons fs rest ih =>
      intro s
      have h1 := bumpOne_sumThree s (GA.fileStep s fs)
        (GA_replace_bumpOne fs.parse fs.env fs.fname fs.fileExists fs.readErr fs.content s)
      calc GA.sumThree (GA.statsFold (fs :: rest) s)
          = GA.sumThree (GA.statsFold rest (GA.fileStep s fs)) := rfl
        _ = GA.sumThree (GA.fileStep s fs) + rest.length := ih _
        _ = GA.sumThree s + (fs :: rest).length := by
            rw [h1]; simp; omega

/-- The batch loop preserves the success-counter/replacement-list
invariant. -/
theorem statsFold_preserves_len : ∀ (specs : List GA.GFileSpec) (s : GA.Stats),
    s.successful_replacements = s.replaced_images.length →
    (GA.statsFold specs s).successful_replacements
      = (GA.statsFold specs s).replaced_images.length := by
  intro specs
  induction specs with
  | nil => intro s h; exact h
  | cons fs rest ih =>
      intro s h
      exact ih (GA.fileStep s fs)
        (GA_replace_preserves_len fs.parse fs.env fs.fname fs.fileExists fs.readErr
          fs.content s h)

/-! The claims. -/

/-- C1 (counterexample): the claim requires the inner upload retry loop's
exponential backoff to be capped by a maximum delay; but the code never
clamps it.  With the script's base retry delay of 5 and six attempts, a
delay of 160 seconds is slept, which exceeds `MAX_DELAY = 120`, the only
maximum delay the scripts define. -/
theorem C1_counterexample :
    160 ∈ (generate_and_upload_image envRL 6 5).2 ∧ ¬ (160 ≤ MAX_DELAY) := by
  constructor
  · decide
  · decide

/-- C1 (amended): after failed attempt `k` the retry delay is exactly
`retry_delay * 2 ^ (k - 1)` — for the inner upload loop on rate-limited
upload errors at every attempt, and for the outer loop (on the attempts
that are not the last) on non-rate-limited exceptions — while the outer
loop uses the longer `retry_delay * 2 ^ k` on rate-limited exceptions.  No
delay is clamped anywhere in `generate_and_upload_image`. -/
theorem C1_backoff_uncapped :
    (∀ (rd : Nat) (up : Nat → PyResult (List Char)) (ks : List Nat)
        (cur : Option (List Char)),
        (∀ k, k ∈ ks → ∃ m, up k = PyResult.raised m ∧ rlUpload m = true) →
        (uploadLoop up rd ks cur).2 = ks.map (fun k => rd * 2 ^ (k - 1)))
  ∧ (∀ (env : GenEnv) (n rd : Nat),
        (∀ k, ∃ m, env.gen k = GenOutcome.exn m ∧ rlGen m = true) →
        (generate_and_upload_image env n rd).2
          = (List.range' 1 (n - 1)).map (fun k => rd * 2 ^ k))
  ∧ (∀ (env : GenEnv) (n rd : Nat),
        (∀ k, ∃ m, env.gen k = GenOutcome.exn m ∧ rlGen m = false) →
        (generate_and_upload_image env n rd).2
          = (List.range' 1 (n - 1)).map (fun k => rd * 2 ^ (k - 1))) := by
  refine ⟨?_, ?_, ?_⟩
  · intro rd up ks cur h
    exact uploadLoop_rl_sleeps up rd ks cur h
  · intro env n rd h
    exact generate_rl_exn_sleeps env n rd h
  · intro env n rd h
    exact generate_plain_exn_sleeps env n rd h

/-- C1 (witness): the three backoff schedules at concrete inputs: three
rate-limited upload failures sleep 5, 10, 20; three rate-limited generation
failures sleep 10, 20; three plain generation failures sleep 5, 10. -/
theorem C1_backoff_uncapped_witness :
    (uploadLoop (fun _ => PyResult.raised rlMsg) 5 (List.range' 1 3) none).2
        = (List.range' 1 3).map (fun k => 5 * 2 ^ (k - 1))
  ∧ (generate_and_upload_image envRLgen 3 5).2
        = (List.range' 1 (3 - 1)).map (fun k => 5 * 2 ^ k)
  ∧ (generate_and_upload_image envPlainExn 3 5).2
        = (List.range' 1 (3 - 1)).map (fun k => 5 * 2 ^ (k - 1)) :=
  ⟨C1_backoff_uncapped.1 5 (fun _ => PyResult.raised rlMsg) (List.range' 1 3) none
      (fun k _ => ⟨rlMsg, rfl, by decide⟩),
   C1_backoff_uncapped.2.1 envRLgen 3 5 (fun _ => ⟨rlMsg, rfl, by decide⟩),
   C1_backoff_uncapped.2.2 envPlainExn 3 5 (fun _ => ⟨"boom".data, rfl, by decide⟩)⟩

/-- C2 (counterexample): `upload_to_cloudinary` does raise a rate-limit
exception on a 429 response, and its message matches the rate-limit
signature; but when every upload attempt raises it, the catch happens
inside `generate_and_upload_image`'s inner loop: the call returns the null
URL, and the processing of a document with a placeholder and a valid title
ends in `replace_image_in_markdown` returning `False` with the file
untouched.  Nothing is caught at the file-processing level and nothing is
re-raised to the batch driver. -/
theorem C2_counterexample :
    upload_to_cloudinary 429 "x".data [] = PyResult.raised rlMsg
  ∧ rlUpload rlMsg = true
  ∧ (generate_and_upload_image envRL MAX_RETRIES BASE_RETRY_DELAY).1 = none
  ∧ PIR.replace_image_in_markdown parseSimple envRL none doc1
      = PyResult.ok (false, doc1, none) := by
  refine ⟨by decide, by decide, by decide, by decide⟩

/-- C2 (amended): every upload-layer error is indeed raised —
`upload_to_cloudinary` raises on 429 (with a message the rate-limit
signatures match, for any response body), on every status of 500 and
above, and on every other non-200 status — but the exception never leaves
`generate_and_upload_image`: for EVERY behaviour of the two services,
`replace_image_in_markdown` returns normally in both scripts, and when
every upload attempt raises, the generator returns the null URL and the
file is reported as a plain `False` failure with its content untouched.
Only exceptions of `replace_image_in_markdown`'s own body (such as read
errors) are re-raised to the batch driver; the driver records such a file
as failed, classifies the message by the rate-limit/quota/429 substrings
to pick the delay it sleeps, and never stops: it accounts for every file
of the batch. -/
theorem C2_upload_errors_swallowed :
    (∀ body url : List Char,
        upload_to_cloudinary 429 body url
          = PyResult.raised ("Cloudinary rate limit exceeded: ".data ++ body)
      ∧ rlUpload ("Cloudinary rate limit exceeded: ".data ++ body) = true
      ∧ rlGen ("Cloudinary rate limit exceeded: ".data ++ body) = true
      ∧ (∀ status : Nat, 500 ≤ status →
            upload_to_cloudinary status body url
              = PyResult.raised ("Cloudinary server error: ".data ++ body))
      ∧ (∀ status : Nat, ¬ status = 200 → ¬ status = 429 → status < 500 →
            upload_to_cloudinary status body url
              = PyResult.raised ("Cloudinary upload failed with status ".data
                  ++ (Nat.repr status).data ++ ": ".data ++ body)))
  ∧ (∀ (parse : List Char → PyResult (Option FM)) (env : GenEnv)
        (content : List Char),
        (PIR.replace_image_in_markdown parse env none content).isOk = true)
  ∧ (∀ (parse : List Char → PyResult (Option FM)) (env : GenEnv)
        (fname : List Char) (fe : Bool) (content : List Char) (s : GA.Stats),
        ((GA.replace_image_in_markdown parse env fname fe none content s).1).isOk
          = true)
  ∧ (∀ (parse : List Char → PyResult (Option FM)) (env : GenEnv)
        (content : List Char),
        (∀ a k, ∃ m, env.upload a k = PyResult.raised m) →
        (generate_and_upload_image env MAX_RETRIES BASE_RETRY_DELAY).1 = none
        ∧ PIR.replace_image_in_markdown parse env none content
            = PyResult.ok (false, content, none))
  ∧ (∀ (parse : List Char → PyResult (Option FM)) (env : GenEnv)
        (content m : List Char),
        PIR.replace_image_in_markdown parse env (some m) content
          = PyResult.raised m)
  ∧ (∀ (st : DriverState) (i : Nat) (msg : List Char),
        driverStepMain st i (FileOutcome.exn msg)
          = { st with
              failed_files := st.failed_files ++ [i],
              consecutive_failures := st.consecutive_failures + 1,
              current_delay :=
                if rlGen msg then min (st.current_delay * 2) driver_max_delay
                else st.current_delay,
              sleeps := st.sleeps ++
                [if rlGen msg then min (st.current_delay * 2) driver_max_delay
                 else st.current_delay] })
  ∧ (∀ outs : List FileOutcome,
        (driverRun outs).success_count + (driverRun outs).failed_files.length
          = outs.length) := by
  refine ⟨?_, ?_, ?_, ?_, ?_, ?_, ?_⟩
  · intro body url
    have hsub : isSubstring "rate limit".data
        (toLowerList ("Cloudinary rate limit exceeded: ".data ++ body)) = true := by
      simp only [toLowerList, List.map_append]
      exact isSubstring_append_left "rate limit".data
        (List.map Char.toLower "Cloudinary rate limit exceeded: ".data)
        (List.map Char.toLower body) (by decide)
    refine ⟨?_, ?_, ?_, ?_, ?_⟩
    · unfold upload_to_cloudinary
      rw [if_neg (by omega), if_pos rfl]
    · simp only [rlUpload, hsub]
    · simp only [rlGen, hsub, Bool.true_or]
    · intro status h
      unfold upload_to_cloudinary
      rw [if_neg (by omega), if_neg (by omega), if_pos h]
    · intro status h200 h429 h500
      unfold upload_to_cloudinary
      rw [if_neg h200, if_neg h429, if_neg (by omega)]
  · intro parse env content
    unfold PIR.replace_image_in_markdown
    by_cases h1 : isSubstring PLACEHOLDER_IMAGE_URL content = true
    · rw [if_pos h1]
      by_cases h2 : fmTitleOk (PIR.extract_front_matter parse content).1 = true
      · rw [if_pos h2]
        by_cases h3 : truthyStr
            (generate_and_upload_image env MAX_RETRIES BASE_RETRY_DELAY).1 = true
        · simp only [h3, if_true]
          rfl
        · simp only [h3, Bool.false_eq_true, if_false]
          rfl
      · rw [if_neg h2]
        rfl
    · rw [if_neg h1]
      rfl
  · intro parse env fname fe content s
    unfold GA.replace_image_in_markdown
    by_cases h1 : (!fe) = true
    · rw [if_pos h1]
      rfl
    · rw [if_neg h1]
      by_cases h2 : (!isSubstring PLACEHOLDER_IMAGE_URL content) = true
      · rw [if_pos h2]
        rfl
      · rw [if_neg h2]
        cases hmt : (if fmTitleOk (GA.extract_front_matter parse content).1 = true
            then some (lookupTitle ((GA.extract_front_matter parse content).1.getD []))
            else GA.altTitleSearch content) with
        | none =>
            simp only [hmt]
            rfl
        | some t =>
            simp only [hmt]
            by_cases h3 : truthyStr
                (generate_and_upload_image env MAX_RETRIES BASE_RETRY_DELAY).1 = true
            · simp only [h3, if_true]
              rfl
            · simp only [h3, Bool.false_eq_true, if_false]
              rfl
  · intro parse env content h
    have hnone := generate_upload_raised_none env MAX_RETRIES BASE_RETRY_DELAY h
    refine ⟨hnone, ?_⟩
    unfold PIR.replace_image_in_markdown
    by_cases h1 : isSubstring PLACEHOLDER_IMAGE_URL content = true
    · rw [if_pos h1]
      by_cases h2 : fmTitleOk (PIR.extract_front_matter parse content).1 = true
      · rw [if_pos h2]
        simp only [hnone, truthyStr, Bool.false_eq_true, if_false]
      · rw [if_neg h2]
    · rw [if_neg h1]
  · intro parse env content m
    rfl
  · intro st i msg
    rfl
  · intro outs
    have h := driverRunFrom_count outs initDriver 0
    simpa [driverRun, initDriver] using h

/-- C2 (witness): the raised server-error message at status 503; a normal
return on a successful run; with every upload raising a rate-limit
exception, a null generator result and a plain `False` failure on a
two-placeholder document; a re-raised read error; and a two-file batch
fully accounted for. -/
theorem C2_upload_errors_swallowed_witness :
    upload_to_cloudinary 503 "x".data []
      = PyResult.raised ("Cloudinary server error: ".data ++ "x".data)
  ∧ (PIR.replace_image_in_markdown parseSimple envOK none doc1).isOk = true
  ∧ (generate_and_upload_image envRL MAX_RETRIES BASE_RETRY_DELAY).1 = none
  ∧ PIR.replace_image_in_markdown parseSimple envRL none doc3
      = PyResult.ok (false, doc3, none)
  ∧ PIR.replace_image_in_markdown parseSimple envRL (some "boom".data) doc3
      = PyResult.raised "boom".data
  ∧ (driverRun [FileOutcome.ok true, FileOutcome.exn rlMsg]).success_count
      + (driverRun [FileOutcome.ok true, FileOutcome.exn rlMsg]).failed_files.length
      = 2 :=
  ⟨(C2_upload_errors_swallowed.1 "x".data []).2.2.2.1 503 (by omega),
   C2_upload_errors_swallowed.2.1 parseSimple envOK doc1,
   (C2_upload_errors_swallowed.2.2.2.1 parseSimple envRL doc3
      (fun _ _ => ⟨rlMsg, rfl⟩)).1,
   (C2_upload_errors_swallowed.2.2.2.1 parseSimple envRL doc3
      (fun _ _ => ⟨rlMsg, rfl⟩)).2,
   C2_upload_errors_swallowed.2.2.2.2.1 parseSimple envRL doc3 "boom".data,
   C2_upload_errors_swallowed.2.2.2.2.2.2 [FileOutcome.ok true,
      FileOutcome.exn rlMsg]⟩

/-- C3 (counterexample): on a document containing the sentinel URL twice,
a successful generation and upload substitutes BOTH occurrences (Python's
`str.replace` replaces every occurrence), not exactly one: the rewritten
file contains zero occurrences of the sentinel and differs from the
single-substitution rewrite.  The backup does hold the original content. -/
theorem C3_counterexample :
    countOcc PLACEHOLDER_IMAGE_URL doc3 = 2
  ∧ PIR.replace_image_in_markdown parseSimple envOK none doc3
      = PyResult.ok (true, doc3out, some doc3)
  ∧ countOcc PLACEHOLDER_IMAGE_URL doc3out = 0
  ∧ ¬ (doc3out = replaceFirst PLACEHOLDER_IMAGE_URL urlNew doc3) := by
  refine ⟨by decide, by decide, by decide, by decide⟩

/-- C3 (amended): for a document with a valid titled front matter that
contains the sentinel URL exactly once, a successful generation and upload
rewrites the file to the single-substitution result and stores the original
content in the backup; when the sentinel occurs more than once, every
occurrence is substituted. -/
theorem C3_single_substitution (parse : List Char → PyResult (Option FM))
    (env : GenEnv) (content url : List Char)
    (hph : isSubstring PLACEHOLDER_IMAGE_URL content = true)
    (hfm : fmTitleOk (PIR.extract_front_matter parse content).1 = true)
    (hgen : (generate_and_upload_image env MAX_RETRIES BASE_RETRY_DELAY).1 = some url)
    (hone : countOcc PLACEHOLDER_IMAGE_URL content = 1) :
    PIR.replace_image_in_markdown parse env none content
      = PyResult.ok (true, replaceFirst PLACEHOLDER_IMAGE_URL url content,
          some content) := by
  have hne : url.isEmpty = false :=
    genLoop_some_nonempty env MAX_RETRIES BASE_RETRY_DELAY
      (List.range' 1 MAX_RETRIES) url hgen
  have htr : truthyStr (generate_and_upload_image env MAX_RETRIES BASE_RETRY_DELAY).1
      = true := by
    rw [hgen]
    simp [truthyStr, hne]
  unfold PIR.replace_image_in_markdown
  rw [if_pos hph, if_pos hfm]
  simp only [hgen, Option.getD_some, truthyStr, hne, Bool.not_false, if_true]
  rw [replaceAll_eq_replaceFirst PLACEHOLDER_IMAGE_URL url content hone]

/-- C3 (witness): the single-occurrence document is rewritten to the
single-substitution result with its original content in the backup. -/
theorem C3_single_substitution_witness :
    PIR.replace_image_in_markdown parseSimple envOK none doc1
      = PyResult.ok (true, replaceFirst PLACEHOLDER_IMAGE_URL urlNew doc1,
          some doc1) :=
  C3_single_substitution parseSimple envOK doc1 urlNew (by decide) (by decide)
    (by decide) (by decide)

/-- C4 (counterexample): a document without the sentinel is left unchanged
and `replace_image_in_markdown` returns `False`; but
placeholder_image_replacer.py's batch driver then appends the file to
`failed_files` and counts it toward the consecutive-failure streak — the
file is recorded as failed, not as skipped. -/
theorem C4_counterexample :
    PIR.replace_image_in_markdown parseSimple envOK none docNoPh
      = PyResult.ok (false, docNoPh, none)
  ∧ (driverRun [FileOutcome.ok false]).failed_files = [0]
  ∧ (driverRun [FileOutcome.ok false]).consecutive_failures = 1 := by
  refine ⟨by decide, by decide, by decide⟩

/-- C4 (amended): a document without the sentinel is left byte-for-byte
unchanged by both scripts; generate_articles.py's statistics count it as
skipped (not failed), but placeholder_image_replacer.py's driver records
every `False` return — the no-placeholder case included — in its
failed-file list. -/
theorem C4_no_placeholder :
    (∀ (parse : List Char → PyResult (Option FM)) (env : GenEnv)
        (content : List Char),
        isSubstring PLACEHOLDER_IMAGE_URL content = false →
        PIR.replace_image_in_markdown parse env none content
          = PyResult.ok (false, content, none))
  ∧ (∀ (parse : List Char → PyResult (Option FM)) (env : GenEnv)
        (fname content : List Char) (s : GA.Stats),
        isSubstring PLACEHOLDER_IMAGE_URL content = false →
        GA.replace_image_in_markdown parse env fname true none content s
          = (PyResult.ok false, { s with skipped_files := s.skipped_files + 1 }))
  ∧ (∀ (st : DriverState) (i : Nat),
        (driverStep st i (FileOutcome.ok false)).failed_files
          = st.failed_files ++ [i]) := by
  refine ⟨?_, ?_, ?_⟩
  · intro parse env content h
    unfold PIR.replace_image_in_markdown
    rw [if_neg (by simp [h])]
  · intro parse env fname content s h
    simp [GA.replace_image_in_markdown, h]
  · intro st i
    simp only [driverStep, driverStepMain, driverBreak]
    split <;> simp

/-- C4 (witness): the sentinel-free document at concrete inputs: unchanged
content and `False` in placeholder_image_replacer.py, a skip tick in
generate_articles.py, and the failed-file record in the driver. -/
theorem C4_no_placeholder_witness :
    PIR.replace_image_in_markdown parseSimple envRL none docNoPh
      = PyResult.ok (false, docNoPh, none)
  ∧ GA.replace_image_in_markdown parseSimple envOK "f.md".data true none docNoPh
        GA.initStats
      = (PyResult.ok false,
         { GA.initStats with skipped_files := GA.initStats.skipped_files + 1 })
  ∧ (driverStep initDriver 0 (FileOutcome.ok false)).failed_files
      = initDriver.failed_files ++ [0] :=
  ⟨C4_no_placeholder.1 parseSimple envRL docNoPh (by decide),
   C4_no_placeholder.2.1 parseSimple envOK "f.md".data docNoPh GA.initStats
      (by decide),
   C4_no_placeholder.2.2 initDriver 0⟩

/-- C5 (counterexample): a front matter that parses to a mapping without a
`title` key is NOT turned into the null result: generate_articles.py's
`extract_front_matter` returns the mapping (and the block), and the same
mapping has no title key.  The title requirement is checked by the caller,
not by the extractor. -/
theorem C5_counterexample :
    (GA.extract_front_matter parseSimple doc5).1
      = some [("author".data, "bob".data)]
  ∧ (PIR.extract_front_matter parseSimple doc5).1
      = some [("author".data, "bob".data)]
  ∧ hasTitleKey [("author".data, "bob".data)] = false := by
  refine ⟨by decide, by decide, by decide⟩

/-- C5 (amended): both extractors return the null result when the opening
delimiter is missing, when the closing delimiter is missing, and when the
parse raises (generate_articles.py additionally nulls `None` and empty
results); but a successfully parsed non-empty mapping is returned whether
or not it has a `title` key — the title check belongs to the caller. -/
theorem C5_extract_front_matter_cases :
    (∀ (parse : List Char → PyResult (Option FM)) (content : List Char),
        isPrefixList "---".data content = false →
        PIR.extract_front_matter parse content = (none, none)
        ∧ GA.extract_front_matter parse content = (none, none))
  ∧ (∀ (parse : List Char → PyResult (Option FM)) (content : List Char),
        findSub "---".data (content.drop 3) = none →
        PIR.extract_front_matter parse content = (none, none)
        ∧ GA.extract_front_matter parse content = (none, none))
  ∧ (∀ (parse : List Char → PyResult (Option FM)) (content : List Char)
        (i : Nat) (m : List Char),
        isPrefixList "---".data content = true →
        findSub "---".data (content.drop 3) = some i →
        parse (trimChars ((content.drop 3).take i)) = PyResult.raised m →
        PIR.extract_front_matter parse content = (none, none)
        ∧ GA.extract_front_matter parse content = (none, none))
  ∧ (∀ (parse : List Char → PyResult (Option FM)) (content : List Char)
        (i : Nat) (es : FM),
        isPrefixList "---".data content = true →
        findSub "---".data (content.drop 3) = some i →
        parse (trimChars ((content.drop 3).take i)) = PyResult.ok (some es) →
        es.isEmpty = false →
        (PIR.extract_front_matter parse content).1 = some es
        ∧ (GA.extract_front_matter parse content).1 = some es) := by
  refine ⟨?_, ?_, ?_, ?_⟩
  · intro parse content h
    constructor
    · unfold PIR.extract_front_matter PIR.fmMatch
      rw [if_neg (by simp [h])]
    · unfold GA.extract_front_matter
      rw [if_neg (by simp [h])]
  · intro parse content h
    constructor
    · unfold PIR.extract_front_matter PIR.fmMatch
      by_cases hs : isPrefixList "---".data content = true
      · rw [if_pos hs, h]
      · rw [if_neg hs]
    · unfold GA.extract_front_matter
      by_cases hs : isPrefixList "---".data content = true
      · rw [if_pos hs, h]
      · rw [if_neg hs]
  · intro parse content i m hs hf hp
    constructor
    · unfold PIR.extract_front_matter PIR.fmMatch
      rw [if_pos hs, hf]
      simp only [hp]
    · unfold GA.extract_front_matter
      rw [if_pos hs, hf]
      simp only [hp]
  · intro parse content i es hs hf hp hes
    constructor
    · unfold PIR.extract_front_matter PIR.fmMatch
      rw [if_pos hs, hf]
      simp only [hp]
    · unfold GA.extract_front_matter
      rw [if_pos hs, hf]
      simp only [hp, hes, Bool.false_eq_true, if_false]

/-- C5 (witness): two of the cases at concrete inputs: a document with no
opening delimiter yields the null result, and the titleless mapping of
`doc5` is returned by both extractors. -/
theorem C5_extract_front_matter_cases_witness :
    (PIR.extract_front_matter parseSimple "xy".data = (none, none)
      ∧ GA.extract_front_matter parseSimple "xy".data = (none, none))
  ∧ ((PIR.extract_front_matter parseSimple doc5).1
        = some [("author".data, "bob".data)]
      ∧ (GA.extract_front_matter parseSimple doc5).1
        = some [("author".data, "bob".data)]) :=
  ⟨C5_extract_front_matter_cases.1 parseSimple "xy".data (by decide),
   C5_extract_front_matter_cases.2.2.2 parseSimple doc5 13
      [("author".data, "bob".data)] (by decide) (by decide) (by decide)
      (by decide)⟩

/-- C6 (counterexample): on a document whose metadata block is malformed
(no closing delimiter, so `extract_front_matter` recovers no title) but
which carries a `title:` line, generate_articles.py does NOT hard-skip: its
alternative regex title extraction recovers the title and the file is
processed to a successful replacement. -/
theorem C6_counterexample :
    (GA.extract_front_matter parseSimple doc6).1 = none
  ∧ GA.altTitleSearch doc6 = some "T".data
  ∧ GA.replace_image_in_markdown parseSimple envOK "f.md".data true none doc6
        GA.initStats
      = (PyResult.ok true,
         { GA.initStats with
             files_with_placeholders := 1,
             successful_replacements := 1,
             replaced_images := [("f.md".data, "T".data, urlNew)] }) := by
  refine ⟨by decide, by decide, by decide⟩

/-- C6 (amended): in placeholder_image_replacer.py a malformed metadata
block is a hard skip whose outcome (a `False` return, untouched file) is
identical to the no-placeholder outcome; in generate_articles.py an
alternative regex title extraction IS attempted — when it succeeds the file
is processed with the recovered title, and when it also fails the file is
counted as a failed replacement, which the statistics distinguish from the
skip counter used for the no-placeholder case. -/
theorem C6_malformed_front_matter :
    (∀ (parse : List Char → PyResult (Option FM)) (env : GenEnv)
        (content : List Char),
        isSubstring PLACEHOLDER_IMAGE_URL content = true →
        fmTitleOk (PIR.extract_front_matter parse content).1 = false →
        PIR.replace_image_in_markdown parse env none content
          = PyResult.ok (false, content, none))
  ∧ (∀ (parse : List Char → PyResult (Option FM)) (env : GenEnv)
        (fname content : List Char) (s : GA.Stats),
        isSubstring PLACEHOLDER_IMAGE_URL content = true →
        fmTitleOk (GA.extract_front_matter parse content).1 = false →
        GA.altTitleSearch content = none →
        GA.replace_image_in_markdown parse env fname true none content s
          = (PyResult.ok false,
             { s with
                 files_with_placeholders := s.files_with_placeholders + 1,
                 failed_replacements := s.failed_replacements + 1 }))
  ∧ (∀ (parse : List Char → PyResult (Option FM)) (env : GenEnv)
        (fname content t url : List Char) (s : GA.Stats),
        isSubstring PLACEHOLDER_IMAGE_URL content = true →
        fmTitleOk (GA.extract_front_matter parse content).1 = false →
        GA.altTitleSearch content = some t →
        (generate_and_upload_image env MAX_RETRIES BASE_RETRY_DELAY).1 = some url →
        GA.replace_image_in_markdown parse env fname true none content s
          = (PyResult.ok true,
             { s with
                 files_with_placeholders := s.files_with_placeholders + 1,
                 successful_replacements := s.successful_replacements + 1,
                 replaced_images := s.replaced_images ++ [(fname, t, url)] })) := by
  refine ⟨?_, ?_, ?_⟩
  · intro parse env content hph hfm
    unfold PIR.replace_image_in_markdown
    rw [if_pos hph, if_neg (by simp [hfm])]
  · intro parse env fname content s hph hfm halt
    unfold GA.replace_image_in_markdown
    rw [if_neg (by simp)]
    rw [if_neg (by simp [hph])]
    simp only [hfm, Bool.false_eq_true, if_false, halt]
  · intro parse env fname content t url s hph hfm halt hgen
    have hne : url.isEmpty = false :=
      genLoop_some_nonempty env MAX_RETRIES BASE_RETRY_DELAY
        (List.range' 1 MAX_RETRIES) url hgen
    unfold GA.replace_image_in_markdown
    rw [if_neg (by simp)]
    rw [if_neg (by simp [hph])]
    simp only [hfm, Bool.false_eq_true, if_false, halt, hgen, Option.getD_some,
      truthyStr, hne, Bool.not_false, if_true]

/-- C6 (witness): the malformed-but-recoverable document at concrete
inputs, together with a hard skip in placeholder_image_replacer.py on a
malformed document carrying the sentinel. -/
theorem C6_malformed_front_matter_witness :
    PIR.replace_image_in_markdown parseSimple envOK none doc6
      = PyResult.ok (false, doc6, none)
  ∧ GA.replace_image_in_markdown parseSimple envOK "g.md".data true none doc6
        GA.initStats
      = (PyResult.ok true,
         { GA.initStats with
             files_with_placeholders := GA.initStats.files_with_placeholders + 1,
             successful_replacements := GA.initStats.successful_replacements + 1,
             replaced_images := GA.initStats.replaced_images
               ++ [("g.md".data, "T".data, urlNew)] }) :=
  ⟨C6_malformed_front_matter.1 parseSimple envOK doc6 (by decide) (by decide),
   C6_malformed_front_matter.2.2 parseSimple envOK "g.md".data doc6 "T".data
      urlNew GA.initStats (by decide) (by decide) (by decide) (by decide)⟩

/-- C7 (confirmed): whenever an iteration of the batch driver brings the
consecutive-failure counter to the threshold of 3, the driver additionally
sleeps `min (current_delay * 3) 120` and resets the counter to 0, whatever
the outcome of the iteration was. -/
theorem C7_consecutive_failure_break (st : DriverState) (idx : Nat)
    (o : FileOutcome)
    (h : 3 ≤ (driverStepMain st idx o).consecutive_failures) :
    driverStep st idx o
      = { driverStepMain st idx o with
          sleeps := (driverStepMain st idx o).sleeps
            ++ [min ((driverStepMain st idx o).current_delay * 3) 120],
          consecutive_failures := 0 } := by
  have h3 : max_consecutive_failures
      ≤ (driverStepMain st idx o).consecutive_failures := h
  unfold driverStep driverBreak
  rw [if_pos h3]

/-- C7 (witness): from a state with two consecutive failures, a third
failing file triggers the extended break of `min (10 * 3) 120 = 30` seconds
and resets the counter. -/
theorem C7_consecutive_failure_break_witness :
    driverStep stW7 0 (FileOutcome.ok false)
      = { current_delay := 10, consecutive_failures := 0, success_count := 0,
          failed_files := [0], sleeps := [10, 30] } :=
  (C7_consecutive_failure_break stW7 0 (FileOutcome.ok false) (by decide)).trans
    (by decide)

/-- C8 (confirmed): after every successful replacement the driver sleeps
the fixed 60-second success delay, resets the adaptive delay to the base
value and resets the failure counter to 0; the adaptive delay grows —
doubled, capped at the driver maximum — only on failures whose exception
message matches the rate-limit/quota/429 signature, and is unchanged by
`False` returns and by non-rate-limited exceptions. -/
theorem C8_success_and_rate_limit_delays :
    SUCCESS_DELAY = 60
  ∧ (∀ (st : DriverState) (idx : Nat),
        driverStep st idx (FileOutcome.ok true)
          = { st with success_count := st.success_count + 1,
                      consecutive_failures := 0,
                      sleeps := st.sleeps ++ [SUCCESS_DELAY],
                      current_delay := base_delay })
  ∧ (∀ (st : DriverState) (idx : Nat) (msg : List Char), rlGen msg = true →
        (driverStep st idx (FileOutcome.exn msg)).current_delay
          = min (st.current_delay * 2) driver_max_delay)
  ∧ (∀ (st : DriverState) (idx : Nat),
        (driverStep st idx (FileOutcome.ok false)).current_delay
          = st.current_delay)
  ∧ (∀ (st : DriverState) (idx : Nat) (msg : List Char), rlGen msg = false →
        (driverStep st idx (FileOutcome.exn msg)).current_delay
          = st.current_delay) := by
  refine ⟨rfl, ?_, ?_, ?_, ?_⟩
  · intro st idx
    unfold driverStep driverStepMain driverBreak
    rw [if_neg (by simp [max_consecutive_failures])]
  · intro st idx msg h
    simp only [driverStep, driverStepMain, driverBreak, h, if_true]
    split <;> rfl
  · intro st idx
    simp only [driverStep, driverStepMain, driverBreak]
    split <;> rfl
  · intro st idx msg h
    simp only [driverStep, driverStepMain, driverBreak, h, Bool.false_eq_true,
      if_false]
    split <;> rfl

/-- C8 (witness): the success and classification transitions from a
concrete mid-run state: a success sleeps 60 and resets the delay and the
counter; a rate-limited exception doubles the delay; a plain exception
leaves it unchanged. -/
theorem C8_success_and_rate_limit_delays_witness :
    driverStep stW8 1 (FileOutcome.ok true)
      = { stW8 with success_count := stW8.success_count + 1,
                    consecutive_failures := 0,
                    sleeps := stW8.sleeps ++ [SUCCESS_DELAY],
                    current_delay := base_delay }
  ∧ (driverStep stW8 1 (FileOutcome.exn rlMsg)).current_delay
      = min (stW8.current_delay * 2) driver_max_delay
  ∧ (driverStep stW8 1 (FileOutcome.exn "boom".data)).current_delay
      = stW8.current_delay :=
  ⟨C8_success_and_rate_limit_delays.2.1 stW8 1,
   C8_success_and_rate_limit_delays.2.2.1 stW8 1 rlMsg (by decide),
   C8_success_and_rate_limit_delays.2.2.2.2 stW8 1 "boom".data (by decide)⟩

/-- C9 (counterexample): a run of generate_articles.py that finds no
markdown files completes normally WITHOUT writing the summary file: the
early return of `process_all_markdown_files` skips the
`create_summary_file()` call at the end of the function, and `main`'s
normal-completion path writes no summary of its own. -/
theorem C9_counterexample :
    GA.main_summary_written [] GA.initStats GA.MainExit.completed = false := by
  decide

/-- C9 (amended): generate_articles.py writes the summary file on user
interruption, on an unhandled exception, and on normal completion provided
at least one markdown file was found; only the zero-file normal completion
skips it. -/
theorem C9_summary_written (specs : List GA.GFileSpec) (s : GA.Stats)
    (ex : GA.MainExit)
    (h : specs ≠ [] ∨ ex ≠ GA.MainExit.completed) :
    GA.main_summary_written specs s ex = true := by
  cases ex with
  | completed =>
      rcases h with h | h
      · simp [GA.main_summary_written, GA.process_all_run, h]
      · exact absurd rfl h
  | interrupted => rfl
  | crashed => rfl

/-- C9 (witness): a one-file run completing normally writes the summary,
and an interrupted zero-file run writes it from the interrupt handler. -/
theorem C9_summary_written_witness :
    GA.main_summary_written [spec1] GA.initStats GA.MainExit.completed = true
  ∧ GA.main_summary_written [] GA.initStats GA.MainExit.interrupted = true :=
  ⟨C9_summary_written [spec1] GA.initStats GA.MainExit.completed
      (Or.inl (List.cons_ne_nil spec1 [])),
   C9_summary_written [] GA.initStats GA.MainExit.interrupted
      (Or.inr (by simp))⟩

/-- C10 (confirmed): every call of generate_articles.py's
`replace_image_in_markdown` bumps exactly one of the success, failure and
skip counters by exactly one; every call preserves the invariant that the
success counter equals the length of `replaced_images`; the batch loop
preserves that invariant and grows the sum of the three counters by exactly
the number of files processed. -/
theorem C10_stats_invariant :
    (∀ (parse : List Char → PyResult (Option FM)) (env : GenEnv)
        (fname : List Char) (fe : Bool) (re : Option (List Char))
        (content : List Char) (s : GA.Stats),
        GA.bumpOne s (GA.replace_image_in_markdown parse env fname fe re content s).2)
  ∧ (∀ (parse : List Char → PyResult (Option FM)) (env : GenEnv)
        (fname : List Char) (fe : Bool) (re : Option (List Char))
        (content : List Char) (s : GA.Stats),
        s.successful_replacements = s.replaced_images.length →
        (GA.replace_image_in_markdown parse env fname fe re content s).2.successful_replacements
          = (GA.replace_image_in_markdown parse env fname fe re content s).2.replaced_images.length)
  ∧ (∀ (specs : List GA.GFileSpec) (s : GA.Stats),
        GA.sumThree (GA.statsFold specs s) = GA.sumThree s + specs.length)
  ∧ (∀ (specs : List GA.GFileSpec) (s : GA.Stats),
        s.successful_replacements = s.replaced_images.length →
        (GA.statsFold specs s).successful_replacements
          = (GA.statsFold specs s).replaced_images.length) := by
  refine ⟨?_, ?_, ?_, ?_⟩
  · intro parse env fname fe re content s
    exact GA_replace_bumpOne parse env fname fe re content s
  · intro parse env fname fe re content s h
    exact GA_replace_preserves_len parse env fname fe re content s h
  · intro specs s
    exact statsFold_sumThree specs s
  · intro specs s h
    exact statsFold_preserves_len specs s h

/-- C10 (witness): the invariant at a concrete successful call: starting
from the all-zero statistics, processing `doc6` keeps the success counter
equal to the length of the replacement list. -/
theorem C10_stats_invariant_witness :
    (GA.replace_image_in_markdown parseSimple envOK "f.md".data true none doc6
        GA.initStats).2.successful_replacements
      = (GA.replace_image_in_markdown parseSimple envOK "f.md".data true none doc6
        GA.initStats).2.replaced_images.length :=
  C10_stats_invariant.2.1 parseSimple envOK "f.md".data true none doc6
    GA.initStats rfl
